import Mathlib

/-!
Verification development for `scripts/load_csv_to_kafka.py`: a shallow
embedding in Lean 4 of the CSV-to-Kafka loader script, together with
theorems settling the specification claims about it.

The script has three pieces:
  * `load_csv(file_path)` — checks that the path exists (raising
    `FileNotFoundError` otherwise), then delegates to `pandas.read_csv`,
    wrapping any parse exception in a `ValueError`;
  * `send_to_kafka(df, topic, bootstrap_servers)` — iterates over the
    DataFrame rows, serialising each row dict with
    `json.dumps(row_dict, default=str)`, producing the UTF-8 encoding of
    that string with the no-op delivery callback `lambda err, msg: None`,
    counting `successful`/`failed`, polling every 100 rows and flushing
    every 10000 rows, then performing one final `producer.flush()` and
    returning `failed == 0` (or `False` early if the producer could not
    be created);
  * `main()` — parses arguments, runs the two functions above, and exits
    with code 0 on success and 1 on any caught error or a `False` result.

The embedding below models each of these as pure Lean functions.
Nondeterministic external events (whether `producer.produce` raises
synchronously, and what delivery outcome the broker later reports for an
enqueued message) are supplied by an `Oracle` of per-row inputs.
-/

/-- A Python value as it appears in a row dict obtained from
`row.to_dict()` on a DataFrame produced by `pandas.read_csv`:
a string, a Python int, Python `None`, or some other object that is not
JSON-serialisable (e.g. a numpy scalar such as `numpy.int64`), which we
represent by the string that Python `str()` returns for it. -/
inductive PyValue where
  | pstr (s : String)
  | pint (n : Int)
  | pnull
  | pobj (strRepr : String)
deriving DecidableEq, Repr

/-- A row dict: an ordered mapping from column names to values
(Python dicts preserve insertion order, so a list of pairs). -/
def Record : Type := List (String × PyValue)

instance : DecidableEq Record := inferInstanceAs (DecidableEq (List (String × PyValue)))

/-- `"\x7b"` — an opening curly brace as a one-character string. -/
def lbrace : String := "\x7b"

/-- `"\x7d"` — a closing curly brace as a one-character string. -/
def rbrace : String := "\x7d"

/-- Hex digit for a number below 16, lower case as Python emits it. -/
def hexDigit (n : Nat) : Char :=
  if n < 10 then Char.ofNat (48 + n) else Char.ofNat (87 + n)

/-- Four-digit hex rendering of a code unit, as in a JSON `\uXXXX` escape. -/
def hex4 (n : Nat) : String :=
  String.mk [hexDigit (n / 4096 % 16), hexDigit (n / 256 % 16),
             hexDigit (n / 16 % 16), hexDigit (n % 16)]

/-- Escape of one character inside a JSON string literal, following
`json.dumps` with its default `ensure_ascii=True`: the two-character
escapes for quote, backslash and common control characters, `\uXXXX` for
other control or non-ASCII characters in the BMP, and a surrogate pair
for characters beyond the BMP. -/
def jsonEscapeChar (c : Char) : String :=
  if c = '"' then "\\\""
  else if c = '\\' then "\\\\"
  else if c = '\n' then "\\n"
  else if c = '\t' then "\\t"
  else if c = '\r' then "\\r"
  else if c.toNat = 8 then "\\b"
  else if c.toNat = 12 then "\\f"
  else if c.toNat < 32 ∨ c.toNat > 126 then
    if c.toNat < 65536 then "\\u" ++ hex4 c.toNat
    else
      let v := c.toNat - 65536
      "\\u" ++ hex4 (55296 + v / 1024) ++ "\\u" ++ hex4 (56320 + v % 1024)
  else String.singleton c

/-- A JSON string literal for `s`: quotes around the escaped characters. -/
def jsonQuote (s : String) : String :=
  "\"" ++ String.join (s.toList.map jsonEscapeChar) ++ "\""

/-- Serialisation of one value by `json.dumps(..., default=str)`:
strings become JSON string literals, ints their decimal form, `None`
becomes `null`, and a non-serialisable object is passed to the `default`
hook `str`, whose result is then serialised as a JSON string — it is
stringified, not rejected. -/
def dumpValue : PyValue → String
  | PyValue.pstr s => jsonQuote s
  | PyValue.pint n => toString n
  | PyValue.pnull => "null"
  | PyValue.pobj r => jsonQuote r

/-- `json.dumps(row_dict, default=str)` on a row dict: the key/value
pairs rendered with the default separators `", "` and `": "` inside
braces.  The result is `Except`-valued because `json.dumps` can raise in
Python; with the `default=str` hook every value of our model serialises,
so the error branch is never taken (proved in `jsonDumps_total`). -/
def jsonDumpsDefault (r : Record) : Except String String :=
  Except.ok (lbrace ++
    String.intercalate ", " (r.map (fun kv => jsonQuote kv.1 ++ ": " ++ dumpValue kv.2)) ++
    rbrace)

/-- UTF-8 encoding of one character, as a list of byte values. -/
def utf8Char (c : Char) : List Nat :=
  let v := c.toNat
  if v < 128 then [v]
  else if v < 2048 then [192 + v / 64, 128 + v % 64]
  else if v < 65536 then [224 + v / 4096, 128 + v / 64 % 64, 128 + v % 64]
  else [240 + v / 262144, 128 + v / 4096 % 64, 128 + v / 64 % 64, 128 + v % 64]

/-- `s.encode('utf-8')`: the UTF-8 byte string of `s`. -/
def utf8Bytes (s : String) : List Nat :=
  s.toList.flatMap utf8Char

/-- The wire payload for one record: the JSON text from
`json.dumps(row_dict, default=str)` encoded to bytes by
`message_value.encode('utf-8')`. -/
def encodeRecord (r : Record) : Except String (List Nat) :=
  (jsonDumpsDefault r).map utf8Bytes

/-- Equality of `Except` values is decidable, so claim witnesses can be
checked by evaluation. -/
instance {ε : Type u} {α : Type v} [DecidableEq ε] [DecidableEq α] :
    DecidableEq (Except ε α) := fun x y =>
  match x, y with
  | Except.ok a, Except.ok b =>
      if h : a = b then isTrue (by rw [h])
      else isFalse (by intro hh; cases hh; exact h rfl)
  | Except.error a, Except.error b =>
      if h : a = b then isTrue (by rw [h])
      else isFalse (by intro hh; cases hh; exact h rfl)
  | Except.ok _, Except.error _ => isFalse (by intro hh; cases hh)
  | Except.error _, Except.ok _ => isFalse (by intro hh; cases hh)

/-- The JSON text of a record, with `""` in the (unreachable) error case;
used to describe the payloads appearing in the effect trace. -/
def rowPayload (r : Record) : String :=
  match jsonDumpsDefault r with
  | Except.ok s => s
  | Except.error _ => ""

/-- Observable producer effects performed by the send loop, in order:
a `producer.produce` call carrying the JSON text whose UTF-8 bytes are
sent, a `producer.poll(0)` call, and a `producer.flush()` call. -/
inductive Effect where
  | produceMsg (payload : String)
  | pollZero
  | flushAll
deriving DecidableEq, Repr

/-- Per-run external nondeterminism, indexed by row position `idx`
(the `pandas.read_csv` DataFrame carries a `RangeIndex`, so `iterrows`
yields positions 0, 1, 2, …):
  * `produceRaises idx` — whether the `producer.produce` call for row
    `idx` raises synchronously (e.g. `BufferError` on a full local
    queue), landing in the `except` block;
  * `ackErr idx` — the delivery outcome the broker later reports for the
    message of row `idx`: `none` for success, `some reason` for a
    broker-reported failure.  It is handed to the delivery callback. -/
structure Oracle where
  produceRaises : Nat → Bool
  ackErr : Nat → Option String

/-- The mutable state of `send_to_kafka` during the loop: the DataFrame
the loop reads from (rows are copied out with `row.to_dict()` and the
frame itself is never written), the `successful` and `failed` counters,
the in-flight delivery reports not yet handed to callbacks (err and
message payload), and the trace of producer effects so far. -/
structure KState where
  df : List Record
  successful : Nat
  failed : Nat
  pending : List (Option String × String)
  effects : List Effect

/-- The delivery callback of every produce call in the script:
`lambda err, msg: None`.  Its Python value is `None` and it performs no
state change, so we model it as returning the pair of its return value
and its effect on the loop state. -/
def ackCallback (_err : Option String) (_msg : String) : PyValue × (KState → KState) :=
  (PyValue.pnull, id)

/-- Handing one pending delivery report to the callback: the state is
transformed by whatever the callback does (nothing, for this script). -/
def deliverOne (st : KState) (e : Option String × String) : KState :=
  (ackCallback e.1 e.2).2 st

/-- `producer.poll(0)` / `producer.flush()` serving the queued delivery
reports: every pending report is passed to its callback and the pending
queue empties. -/
def drainPending (st : KState) : KState :=
  let st := st.pending.foldl deliverOne st
  { st with pending := [] }

/-- One iteration of the `for idx, row in df.iterrows()` loop body:
`row.to_dict()` then `json.dumps(row_dict, default=str)`; on success,
`producer.produce(topic, value=..., callback=lambda err, msg: None)`,
`successful += 1`, then `producer.poll(0)` when `(idx + 1) % 100 == 0`
and `producer.flush()` when `(idx + 1) % 10000 == 0`.  Any exception in
the body lands in the `except` block: `failed += 1`, `producer.poll(0)`,
`continue`. -/
def processRow (o : Oracle) (idx : Nat) (r : Record) (st : KState) : KState :=
  match jsonDumpsDefault r with
  | Except.error _ =>
      drainPending { st with failed := st.failed + 1,
                             effects := st.effects ++ [Effect.pollZero] }
  | Except.ok payload =>
      if o.produceRaises idx then
        drainPending { st with failed := st.failed + 1,
                               effects := st.effects ++ [Effect.pollZero] }
      else
        let st1 : KState :=
          { st with successful := st.successful + 1,
                    pending := st.pending ++ [(o.ackErr idx, payload)],
                    effects := st.effects ++ [Effect.produceMsg payload] }
        let st2 : KState :=
          if (idx + 1) % 100 = 0 then
            drainPending { st1 with effects := st1.effects ++ [Effect.pollZero] }
          else st1
        if (idx + 1) % 10000 = 0 then
          drainPending { st2 with effects := st2.effects ++ [Effect.flushAll] }
        else st2

/-- The send loop over the remaining rows, starting at position `idx`.
`df.iterrows()` yields each row as a copy, so the iteration sequence is
a separate list while the DataFrame itself stays in the state. -/
def sendLoop (o : Oracle) : Nat → List Record → KState → KState
  | _, [], st => st
  | idx, r :: rs, st => sendLoop o (idx + 1) rs (processRow o idx r st)

/-- Initial loop state: both counters zero, nothing in flight. -/
def initState (df : List Record) : KState :=
  { df := df, successful := 0, failed := 0, pending := [], effects := [] }

/-- Outcome of `send_to_kafka`: either the producer could not be created
(early `return False`), or the loop completed with the final counter
values and the trace of producer effects. -/
inductive SendResult where
  | noProducer
  | completed (successful failed : Nat) (effects : List Effect)
deriving DecidableEq, Repr

/-- The body of `send_to_kafka` after producer creation: run the loop
over all rows from position 0, then the terminal `producer.flush()`,
then read the counters.  Returns the outcome together with the
DataFrame as it is after the run. -/
def sendToKafkaRun (producerOk : Bool) (o : Oracle) (df : List Record) :
    SendResult × List Record :=
  if producerOk then
    let st := sendLoop o 0 df (initState df)
    let st := drainPending { st with effects := st.effects ++ [Effect.flushAll] }
    (SendResult.completed st.successful st.failed st.effects, st.df)
  else
    (SendResult.noProducer, df)

/-- The Boolean return value of `send_to_kafka`: `False` when the
producer cannot be created, otherwise `failed == 0` after the final
flush. -/
def sendToKafka (producerOk : Bool) (o : Oracle) (df : List Record) : Bool :=
  match (sendToKafkaRun producerOk o df).1 with
  | SendResult.noProducer => false
  | SendResult.completed _ f _ => f = 0

/-- The exceptions `load_csv` can raise: `FileNotFoundError` when the
path does not exist, and the `ValueError` that wraps any
`pandas.read_csv` exception. -/
inductive LoadError where
  | fileNotFound (path : String)
  | valueError (msg : String)
deriving DecidableEq, Repr

/-- `load_csv(file_path)`: the filesystem is a partial map `fs` from
paths to raw file contents (`none` when `Path(file_path).exists()` is
false), and `readCsv` is the external `pandas.read_csv` turning contents
into a DataFrame or failing.  The existence check happens before any
read; a parse failure is wrapped in a `ValueError`. -/
def load_csv (fs : String → Option String)
    (readCsv : String → Except String (List Record))
    (path : String) : Except LoadError (List Record) :=
  match fs path with
  | none => Except.error (LoadError.fileNotFound path)
  | some contents =>
      match readCsv contents with
      | Except.error e => Except.error (LoadError.valueError e)
      | Except.ok df => Except.ok df

/-- `main()` for fixed parsed arguments: `load_csv` then
`send_to_kafka`; exit code 0 when the latter returns `True`, and 1 when
it returns `False` or when `FileNotFoundError`, `ValueError` or any
other exception is caught. -/
def mainExit (fs : String → Option String)
    (readCsv : String → Except String (List Record))
    (path : String) (producerOk : Bool) (o : Oracle) : Nat :=
  match load_csv fs readCsv path with
  | Except.error _ => 1
  | Except.ok df => if sendToKafka producerOk o df then 0 else 1

/-- The payloads of the produce effects in an effect trace, in order. -/
def producesOf : List Effect → List String
  | [] => []
  | Effect.produceMsg p :: es => p :: producesOf es
  | Effect.pollZero :: es => producesOf es
  | Effect.flushAll :: es => producesOf es

/-- Whether row `idx` with dict `r` takes the success path of the loop
body: serialisation succeeds and `producer.produce` does not raise. -/
def succeedsAt (o : Oracle) (idx : Nat) (r : Record) : Bool :=
  match jsonDumpsDefault r with
  | Except.error _ => false
  | Except.ok _ => !o.produceRaises idx

/-- Number of rows of `rs` (positions starting at `idx`) taking the
success path. -/
def countSuccFrom (o : Oracle) : Nat → List Record → Nat
  | _, [] => 0
  | idx, r :: rs =>
      (if succeedsAt o idx r then 1 else 0) + countSuccFrom o (idx + 1) rs

/-- Number of rows of `rs` (positions starting at `idx`) landing in the
`except` block. -/
def countFailFrom (o : Oracle) : Nat → List Record → Nat
  | _, [] => 0
  | idx, r :: rs =>
      (if succeedsAt o idx r then 0 else 1) + countFailFrom o (idx + 1) rs

/-- The JSON payloads of the rows of `rs` (positions starting at `idx`)
that take the success path, in row order. -/
def payloadsFrom (o : Oracle) : Nat → List Record → List String
  | _, [] => []
  | idx, r :: rs =>
      (if succeedsAt o idx r then [rowPayload r] else []) ++
        payloadsFrom o (idx + 1) rs

/-- The `failed` counter of a completed run. -/
def sendFailed : SendResult → Option Nat
  | SendResult.noProducer => none
  | SendResult.completed _ f _ => some f

/-- The `successful` counter of a completed run. -/
def sendSuccessful : SendResult → Option Nat
  | SendResult.noProducer => none
  | SendResult.completed s _ _ => some s

/-- The effect trace of a completed run. -/
def sendEffects : SendResult → Option (List Effect)
  | SendResult.noProducer => none
  | SendResult.completed _ _ e => some e

/-- The projection of the loop state the run outcome is built from:
everything except the in-flight delivery reports. -/
def KState.view (st : KState) : List Record × Nat × Nat × List Effect :=
  (st.df, st.successful, st.failed, st.effects)

theorem jsonDumps_total (r : Record) : ∃ s, jsonDumpsDefault r = Except.ok s :=
  ⟨_, rfl⟩

theorem deliverOne_eq (st : KState) (e : Option String × String) :
    deliverOne st e = st := rfl

theorem foldl_deliverOne (l : List (Option String × String)) (st : KState) :
    l.foldl deliverOne st = st := by
  induction l generalizing st with
  | nil => rfl
  | cons e l ih => simpa [List.foldl, deliverOne_eq] using ih st

/-- Serving the delivery-report queue only empties it: the no-op
callback changes nothing else. -/
theorem drainPending_eq (st : KState) :
    drainPending st = { st with pending := [] } := by
  simp [drainPending, foldl_deliverOne]

theorem producesOf_append (es fs : List Effect) :
    producesOf (es ++ fs) = producesOf es ++ producesOf fs := by
  induction es with
  | nil => rfl
  | cons e es ih => cases e <;> simp [producesOf, ih]

theorem producesOf_nil : producesOf [] = [] := rfl
theorem producesOf_poll : producesOf [Effect.pollZero] = [] := rfl
theorem producesOf_flush : producesOf [Effect.flushAll] = [] := rfl
theorem producesOf_produce (p : String) : producesOf [Effect.produceMsg p] = [p] := rfl

theorem processRow_fields (o : Oracle) (idx : Nat) (r : Record) (st : KState) :
    (processRow o idx r st).df = st.df ∧
    (processRow o idx r st).successful
      = st.successful + (if succeedsAt o idx r then 1 else 0) ∧
    (processRow o idx r st).failed
      = st.failed + (if succeedsAt o idx r then 0 else 1) ∧
    producesOf (processRow o idx r st).effects
      = producesOf st.effects ++ (if succeedsAt o idx r then [rowPayload r] else []) := by
  unfold processRow succeedsAt rowPayload
  simp only [jsonDumpsDefault]
  cases hpr : o.produceRaises idx with
  | true =>
      simp [drainPending_eq, producesOf_append, producesOf_poll]
  | false =>
      by_cases h100 : (idx + 1) % 100 = 0 <;>
      by_cases h10000 : (idx + 1) % 10000 = 0 <;>
        simp [h100, h10000, drainPending_eq, producesOf_append, producesOf]

theorem sendLoop_df (o : Oracle) (rs : List Record) (idx : Nat) (st : KState) :
    (sendLoop o idx rs st).df = st.df := by
  induction rs generalizing idx st with
  | nil => rfl
  | cons r rs ih =>
      rw [sendLoop, ih, (processRow_fields o idx r st).1]

theorem sendLoop_successful (o : Oracle) (rs : List Record) (idx : Nat) (st : KState) :
    (sendLoop o idx rs st).successful = st.successful + countSuccFrom o idx rs := by
  induction rs generalizing idx st with
  | nil => simp [sendLoop, countSuccFrom]
  | cons r rs ih =>
      rw [sendLoop, ih, (processRow_fields o idx r st).2.1, countSuccFrom]
      omega

theorem sendLoop_failed (o : Oracle) (rs : List Record) (idx : Nat) (st : KState) :
    (sendLoop o idx rs st).failed = st.failed + countFailFrom o idx rs := by
  induction rs generalizing idx st with
  | nil => simp [sendLoop, countFailFrom]
  | cons r rs ih =>
      rw [sendLoop, ih, (processRow_fields o idx r st).2.2.1, countFailFrom]
      omega

theorem sendLoop_produces (o : Oracle) (rs : List Record) (idx : Nat) (st : KState) :
    producesOf (sendLoop o idx rs st).effects
      = producesOf st.effects ++ payloadsFrom o idx rs := by
  induction rs generalizing idx st with
  | nil => simp [sendLoop, payloadsFrom]
  | cons r rs ih =>
      rw [sendLoop, ih, (processRow_fields o idx r st).2.2.2, payloadsFrom]
      simp

theorem countSucc_add_countFail (o : Oracle) (rs : List Record) (idx : Nat) :
    countSuccFrom o idx rs + countFailFrom o idx rs = rs.length := by
  induction rs generalizing idx with
  | nil => rfl
  | cons r rs ih =>
      rw [countSuccFrom, countFailFrom, List.length_cons]
      have := ih (idx + 1)
      by_cases h : succeedsAt o idx r <;> simp [h] <;> omega

theorem KState.view_eq_iff (st st' : KState) :
    st.view = st'.view ↔
      st.df = st'.df ∧ st.successful = st'.successful ∧
      st.failed = st'.failed ∧ st.effects = st'.effects := by
  simp [KState.view, Prod.ext_iff]

theorem processRow_ack_indep (o o' : Oracle) (h : o.produceRaises = o'.produceRaises)
    (idx : Nat) (r : Record) (st st' : KState) (hv : st.view = st'.view) :
    (processRow o idx r st).view = (processRow o' idx r st').view := by
  obtain ⟨hdf, hs, hf, he⟩ := (KState.view_eq_iff st st').1 hv
  unfold processRow
  simp only [jsonDumpsDefault, h]
  cases hpr : o'.produceRaises idx with
  | true =>
      simp [drainPending_eq, KState.view_eq_iff, hdf, hs, hf, he]
  | false =>
      by_cases h100 : (idx + 1) % 100 = 0 <;>
      by_cases h10000 : (idx + 1) % 10000 = 0 <;>
        simp [h100, h10000, drainPending_eq, KState.view_eq_iff, hdf, hs, hf, he]

theorem sendLoop_ack_indep (o o' : Oracle) (h : o.produceRaises = o'.produceRaises)
    (rs : List Record) (idx : Nat) (st st' : KState) (hv : st.view = st'.view) :
    (sendLoop o idx rs st).view = (sendLoop o' idx rs st').view := by
  induction rs generalizing idx st st' with
  | nil => exact hv
  | cons r rs ih =>
      rw [sendLoop, sendLoop]
      exact ih (idx + 1) _ _ (processRow_ack_indep o o' h idx r st st' hv)

theorem sendToKafkaRun_ack_indep (producerOk : Bool) (o o' : Oracle)
    (h : o.produceRaises = o'.produceRaises) (df : List Record) :
    sendToKafkaRun producerOk o df = sendToKafkaRun producerOk o' df := by
  cases producerOk with
  | false => rfl
  | true =>
      have hv := sendLoop_ack_indep o o' h df 0 (initState df) (initState df) rfl
      obtain ⟨hdf, hs, hf, he⟩ :=
        (KState.view_eq_iff (sendLoop o 0 df (initState df))
          (sendLoop o' 0 df (initState df))).1 hv
      simp [sendToKafkaRun, drainPending_eq, hdf, hs, hf, he]

/-! Concrete fixtures used by witnesses and counterexamples. -/

/-- A concrete row dict, as from a CSV line `1,alice`. -/
def rA : Record := [("id", PyValue.pint 1), ("name", PyValue.pstr "alice")]

/-- A concrete row dict, as from a CSV line `2,bob`. -/
def rB : Record := [("id", PyValue.pint 2), ("name", PyValue.pstr "bob")]

/-- A concrete row dict, as from a CSV line `3,eve`. -/
def rC : Record := [("id", PyValue.pint 3), ("name", PyValue.pstr "eve")]

/-- A row dict holding a value `json.dumps` cannot serialise without the
`default` hook — a numpy float as read by pandas, with `str()` form
`123.45`. -/
def rNumpy : Record := [("amount", PyValue.pobj "123.45")]

/-- A run in which no produce call raises and the broker acknowledges
every message as delivered. -/
def oAllOk : Oracle :=
  { produceRaises := fun _ => false, ackErr := fun _ => none }

/-- A run in which no produce call raises but the broker reports a
delivery failure for the second message (position 1). -/
def oAckSecondFails : Oracle :=
  { produceRaises := fun _ => false,
    ackErr := fun i => if i = 1 then some "delivery failed" else none }

/-- A run in which the produce call for the second row (position 1)
raises synchronously and everything else succeeds. -/
def oProduceSecondRaises : Oracle :=
  { produceRaises := fun i => i = 1, ackErr := fun _ => none }

/-- A filesystem on which only `data.csv` exists, holding a three-line
CSV body. -/
def fsData : String → Option String :=
  fun p => if p = "data.csv" then some "id,name\n1,alice\n2,bob\n3,eve\n" else none

/-- A `pandas.read_csv` behaviour parsing that body into three rows. -/
def readCsvData : String → Except String (List Record) :=
  fun _ => Except.ok [rA, rB, rC]

/-- A `pandas.read_csv` behaviour that always fails to parse. -/
def readCsvBroken : String → Except String (List Record) :=
  fun _ => Except.error "parse error"

/-! Claim theorems. -/

/-- C10: `send_to_kafka` does not modify its input DataFrame — the loop
reads each row out with `row.to_dict()` and never writes to the frame,
so after any run (producer created or not) the DataFrame is unchanged. -/
theorem claim_C10_df_unchanged (producerOk : Bool) (o : Oracle) (df : List Record) :
    (sendToKafkaRun producerOk o df).2 = df := by
  cases producerOk with
  | false => rfl
  | true => simp [sendToKafkaRun, drainPending_eq, sendLoop_df, initState]

/-- C1: at every row boundary of the send loop the counters satisfy
`successful + failed = rows seen so far` (hence never exceed the rows
seen), and after the loop and the terminal flush they sum to the total
number of rows, each row having incremented exactly one of the two
counters exactly once. -/
theorem claim_C1_counter_invariant (o : Oracle) (df : List Record) (k : Nat)
    (hk : k ≤ df.length) (s f : Nat) (e : List Effect)
    (hrun : (sendToKafkaRun true o df).1 = SendResult.completed s f e) :
    (sendLoop o 0 (df.take k) (initState df)).successful
        + (sendLoop o 0 (df.take k) (initState df)).failed = k
    ∧ s + f = df.length := by
  constructor
  · rw [sendLoop_successful, sendLoop_failed]
    have hlen : (df.take k).length = k := by
      simp [List.length_take, Nat.min_eq_left hk]
    calc (initState df).successful + countSuccFrom o 0 (df.take k)
          + ((initState df).failed + countFailFrom o 0 (df.take k))
        = countSuccFrom o 0 (df.take k) + countFailFrom o 0 (df.take k) := by
          simp [initState]
      _ = (df.take k).length := countSucc_add_countFail o (df.take k) 0
      _ = k := hlen
  · have h2 : (sendToKafkaRun true o df).1
        = SendResult.completed (countSuccFrom o 0 df) (countFailFrom o 0 df)
            ((sendLoop o 0 df (initState df)).effects ++ [Effect.flushAll]) := by
      simp [sendToKafkaRun, drainPending_eq, sendLoop_successful, sendLoop_failed, initState]
    rw [hrun] at h2
    injection h2 with hs hf he
    rw [hs, hf]
    exact countSucc_add_countFail o df 0

/-- C1 witness: a two-row run with no failures, checked after the first
row (`k = 1`) and at completion. -/
theorem claim_C1_counter_invariant_witness :
    (sendLoop oAllOk 0 ([rA, rB].take 1) (initState [rA, rB])).successful
        + (sendLoop oAllOk 0 ([rA, rB].take 1) (initState [rA, rB])).failed = 1
    ∧ 2 + 0 = ([rA, rB] : List Record).length :=
  claim_C1_counter_invariant oAllOk [rA, rB] 1 (by decide) 2 0
    [Effect.produceMsg (rowPayload rA), Effect.produceMsg (rowPayload rB), Effect.flushAll]
    (by decide)

/-- C2 counterexample: three records, no produce call raises, the broker
reports a delivery failure for record 2 via the acknowledgment callback.
The claimed summary is `succeeded:2, failed:1` with exit code 1; the
script actually reports `succeeded:3, failed:0` and exits 0, because the
no-op callback discards the broker-reported failure. -/
theorem claim_C2_counterexample :
    sendSuccessful (sendToKafkaRun true oAckSecondFails [rA, rB, rC]).1 = some 3
    ∧ sendFailed (sendToKafkaRun true oAckSecondFails [rA, rB, rC]).1 = some 0
    ∧ mainExit fsData readCsvData "data.csv" true oAckSecondFails = 0
    ∧ ¬ sendSuccessful (sendToKafkaRun true oAckSecondFails [rA, rB, rC]).1 = some 2
    ∧ ¬ sendFailed (sendToKafkaRun true oAckSecondFails [rA, rB, rC]).1 = some 1
    ∧ ¬ mainExit fsData readCsvData "data.csv" true oAckSecondFails = 1 := by
  decide

/-- C2 amended: broker-reported failure outcomes are silently discarded
by the no-op callback, so the scenario's broker failure on record 2
yields `seen:3, succeeded:3, failed:0` and exit code 0; a failure is
reflected in the counters and the exit code only when the produce call
itself raises synchronously, in which case the summary is
`seen:3, succeeded:2, failed:1` with exit code 1. -/
theorem claim_C2_amended :
    (sendToKafkaRun true oAckSecondFails [rA, rB, rC]).1
        = SendResult.completed 3 0
            [Effect.produceMsg (rowPayload rA), Effect.produceMsg (rowPayload rB),
             Effect.produceMsg (rowPayload rC), Effect.flushAll]
    ∧ mainExit fsData readCsvData "data.csv" true oAckSecondFails = 0
    ∧ (sendToKafkaRun true oProduceSecondRaises [rA, rB, rC]).1
        = SendResult.completed 2 1
            [Effect.produceMsg (rowPayload rA), Effect.pollZero,
             Effect.produceMsg (rowPayload rC), Effect.flushAll]
    ∧ mainExit fsData readCsvData "data.csv" true oProduceSecondRaises = 1 := by
  decide

/-- C3: encoding is pure and deterministic — the embedding of
`json.dumps(row_dict, default=str)` followed by `.encode('utf-8')` is a
function of the row dict alone, so encoding the same record twice gives
byte-identical payloads and equal records give equal payloads. -/
theorem claim_C3_encode_deterministic (r r' : Record) (h : r = r') :
    encodeRecord r = encodeRecord r ∧ encodeRecord r = encodeRecord r' := by
  constructor
  · rfl
  · rw [h]

/-- C3 witness: the concrete record `rA`, encoded twice. -/
theorem claim_C3_encode_deterministic_witness :
    encodeRecord rA = encodeRecord rA ∧ encodeRecord rA = encodeRecord rA :=
  claim_C3_encode_deterministic rA rA rfl

/-- C4 counterexample: a record holding a non-serialisable value (a
numpy float, `str()` form `123.45`).  The claim says encoding fails with
an encoding error and the row is counted as a failure; actually
`json.dumps(..., default=str)` stringifies the value, encoding succeeds,
and the row is counted as a success. -/
theorem claim_C4_counterexample :
    encodeRecord rNumpy = Except.ok (utf8Bytes "\x7b\"amount\": \"123.45\"\x7d")
    ∧ ¬ (∃ e, encodeRecord rNumpy = Except.error e)
    ∧ sendSuccessful (sendToKafkaRun true oAllOk [rNumpy]).1 = some 1
    ∧ sendFailed (sendToKafkaRun true oAllOk [rNumpy]).1 = some 0 := by
  refine ⟨by decide, ?_, by decide, by decide⟩
  rintro ⟨e, he⟩
  have hok : encodeRecord rNumpy
      = Except.ok (utf8Bytes "\x7b\"amount\": \"123.45\"\x7d") := by decide
  rw [hok] at he
  exact Except.noConfusion he

/-- With the `default=str` hook, a row whose produce call does not raise
always takes the success path. -/
theorem succeedsAt_of_noRaise (o : Oracle) (idx : Nat) (r : Record)
    (h : o.produceRaises idx = false) : succeedsAt o idx r = true := by
  simp [succeedsAt, jsonDumpsDefault, h]

theorem countSuccFrom_of_noRaise (o : Oracle) (rs : List Record) (idx : Nat)
    (h : ∀ i, o.produceRaises i = false) :
    countSuccFrom o idx rs = rs.length := by
  induction rs generalizing idx with
  | nil => rfl
  | cons r rs ih =>
      rw [countSuccFrom, ih (idx + 1), succeedsAt_of_noRaise o idx r (h idx)]
      simp [Nat.add_comm]

theorem countFailFrom_of_noRaise (o : Oracle) (rs : List Record) (idx : Nat)
    (h : ∀ i, o.produceRaises i = false) :
    countFailFrom o idx rs = 0 := by
  induction rs generalizing idx with
  | nil => rfl
  | cons r rs ih =>
      rw [countFailFrom, ih (idx + 1), succeedsAt_of_noRaise o idx r (h idx)]
      simp

/-- C4 amended: `json.dumps(row_dict, default=str)` never fails — a
non-serialisable value is silently stringified through the `default`
hook `str` and serialised as a JSON string — and consequently, in a run
where no produce call raises, every row (including rows holding
non-serialisable values) is counted as a success. -/
theorem claim_C4_amended (r : Record) (k v : String) (o : Oracle)
    (df : List Record) (h : ∀ i, o.produceRaises i = false) :
    (∃ s, jsonDumpsDefault r = Except.ok s)
    ∧ jsonDumpsDefault [(k, PyValue.pobj v)]
        = Except.ok (lbrace ++ (jsonQuote k ++ ": " ++ jsonQuote v) ++ rbrace)
    ∧ sendSuccessful (sendToKafkaRun true o df).1 = some df.length
    ∧ sendFailed (sendToKafkaRun true o df).1 = some 0 := by
  refine ⟨⟨_, rfl⟩, ?_, ?_, ?_⟩
  · rfl
  · simp [sendToKafkaRun, drainPending_eq, sendLoop_successful, initState,
          sendSuccessful, countSuccFrom_of_noRaise o df 0 h]
  · simp [sendToKafkaRun, drainPending_eq, sendLoop_failed, initState,
          sendFailed, countFailFrom_of_noRaise o df 0 h]

/-- C4 amended witness: the numpy-valued record, in a one-row run with
no produce failures. -/
theorem claim_C4_amended_witness :
    (∃ s, jsonDumpsDefault rNumpy = Except.ok s)
    ∧ jsonDumpsDefault [("amount", PyValue.pobj "123.45")]
        = Except.ok (lbrace ++ (jsonQuote "amount" ++ ": " ++ jsonQuote "123.45") ++ rbrace)
    ∧ sendSuccessful (sendToKafkaRun true oAllOk [rNumpy]).1 = some ([rNumpy] : List Record).length
    ∧ sendFailed (sendToKafkaRun true oAllOk [rNumpy]).1 = some 0 :=
  claim_C4_amended rNumpy "amount" "123.45" oAllOk [rNumpy] (fun _ => rfl)

/-- C5: `send_to_kafka` returns `True` exactly when the producer was
created and the final `failed` counter is zero, and the process exit
code is 0 exactly when `load_csv` succeeded and `send_to_kafka` returned
`True` — 1 in every other case. -/
theorem claim_C5_exit_code (producerOk : Bool) (o : Oracle) (df : List Record)
    (fs : String → Option String) (readCsv : String → Except String (List Record))
    (path : String) :
    (sendToKafka producerOk o df = true
      ↔ producerOk = true ∧ sendFailed (sendToKafkaRun producerOk o df).1 = some 0)
    ∧ (mainExit fs readCsv path producerOk o = 0
      ↔ ∃ df2, load_csv fs readCsv path = Except.ok df2 ∧ sendToKafka producerOk o df2 = true)
    ∧ (mainExit fs readCsv path producerOk o = 0 ∨ mainExit fs readCsv path producerOk o = 1) := by
  refine ⟨?_, ?_, ?_⟩
  · cases producerOk with
    | false => simp [sendToKafka, sendToKafkaRun, sendFailed]
    | true => simp [sendToKafka, sendToKafkaRun, drainPending_eq, sendFailed]
  · unfold mainExit
    cases hload : load_csv fs readCsv path with
    | error e => simp [hload]
    | ok df2 =>
        by_cases hs : sendToKafka producerOk o df2 = true <;> simp [hs]
  · unfold mainExit
    cases hload : load_csv fs readCsv path with
    | error e => simp
    | ok df2 => by_cases hs : sendToKafka producerOk o df2 = true <;> simp [hs]

/-- A row landing in the `except` block contributes to the failure
tally of any enclosing suffix of the run. -/
theorem countFailFrom_pos (o : Oracle) (rs : List Record) (j i : Nat)
    (hi : i < rs.length) (hf : succeedsAt o (j + i) (rs.get ⟨i, hi⟩) = false) :
    1 ≤ countFailFrom o j rs := by
  induction rs generalizing j i with
  | nil => simp at hi
  | cons r rs ih =>
      cases i with
      | zero =>
          rw [countFailFrom]
          simp only [Nat.add_zero] at hf
          simp only [List.get] at hf
          rw [hf]
          simp
      | succ i =>
          rw [countFailFrom]
          have hi2 : i < rs.length := by simpa using hi
          have hf2 : succeedsAt o (j + 1 + i) (rs.get ⟨i, hi2⟩) = false := by
            have : j + 1 + i = j + (i + 1) := by omega
            rw [this]
            simpa [List.get] using hf
          have := ih (j + 1) i hi2 hf2
          omega

/-- C6: per-record errors are isolated — when some row of the run lands
in the `except` block, the run still completes, that row is tallied in
the `failed` counter (which is exactly the number of failing rows, so at
least one), and the produce effects are exactly the payloads of every
succeeding row, including all rows after the failing one. -/
theorem claim_C6_error_isolation (o : Oracle) (df : List Record) (i : Nat)
    (hi : i < df.length) (hf : succeedsAt o i (df.get ⟨i, hi⟩) = false) :
    ∃ e, (sendToKafkaRun true o df).1
        = SendResult.completed (countSuccFrom o 0 df) (countFailFrom o 0 df) e
      ∧ 1 ≤ countFailFrom o 0 df
      ∧ producesOf e = payloadsFrom o 0 df := by
  refine ⟨(sendLoop o 0 df (initState df)).effects ++ [Effect.flushAll], ?_, ?_, ?_⟩
  · simp [sendToKafkaRun, drainPending_eq, sendLoop_successful, sendLoop_failed, initState]
  · exact countFailFrom_pos o df 0 i hi (by simpa using hf)
  · rw [producesOf_append, sendLoop_produces]
    simp [producesOf, initState]

/-- C6 witness: three rows, the produce call for the middle one raises;
the run completes with one failure and both other rows produced. -/
theorem claim_C6_error_isolation_witness :
    ∃ e, (sendToKafkaRun true oProduceSecondRaises [rA, rB, rC]).1
        = SendResult.completed (countSuccFrom oProduceSecondRaises 0 [rA, rB, rC])
            (countFailFrom oProduceSecondRaises 0 [rA, rB, rC]) e
      ∧ 1 ≤ countFailFrom oProduceSecondRaises 0 [rA, rB, rC]
      ∧ producesOf e = payloadsFrom oProduceSecondRaises 0 [rA, rB, rC] :=
  claim_C6_error_isolation oProduceSecondRaises [rA, rB, rC] 1 (by decide) (by decide)

/-- C7: whenever `send_to_kafka` reaches its returned summary (the loop
ran — the producer was created), the effect trace is the loop's trace
followed by the terminal `producer.flush()`: the final blocking flush
happens after the last row and before the result is read, and it is the
last producer effect of the run, whether or not rows failed. -/
theorem claim_C7_final_flush (producerOk : Bool) (o : Oracle) (df : List Record)
    (s f : Nat) (e : List Effect)
    (h : (sendToKafkaRun producerOk o df).1 = SendResult.completed s f e) :
    e = (sendLoop o 0 df (initState df)).effects ++ [Effect.flushAll]
    ∧ e.getLast? = some Effect.flushAll := by
  cases producerOk with
  | false => exact absurd h (by simp [sendToKafkaRun])
  | true =>
      have h2 : (sendToKafkaRun true o df).1
          = SendResult.completed (sendLoop o 0 df (initState df)).successful
              (sendLoop o 0 df (initState df)).failed
              ((sendLoop o 0 df (initState df)).effects ++ [Effect.flushAll]) := by
        simp [sendToKafkaRun, drainPending_eq]
      rw [h] at h2
      injection h2 with hs hf he
      refine ⟨he, ?_⟩
      rw [he]
      simp

/-- C7 concrete effect trace: produce row 1, poll from row 2's `except`
block, produce row 3, terminal flush. -/
def eC7 : List Effect :=
  [Effect.produceMsg (rowPayload rA), Effect.pollZero,
   Effect.produceMsg (rowPayload rC), Effect.flushAll]

/-- C7 witness: a three-row run whose middle row fails still ends its
effect trace with the terminal flush. -/
theorem claim_C7_final_flush_witness :
    eC7 = (sendLoop oProduceSecondRaises 0 [rA, rB, rC]
            (initState [rA, rB, rC])).effects ++ [Effect.flushAll]
    ∧ eC7.getLast? = some Effect.flushAll :=
  claim_C7_final_flush true oProduceSecondRaises [rA, rB, rC] 2 1 eC7 (by decide)

/-- C8: the acknowledgment callback `lambda err, msg: None` returns
Python `None` and leaves the loop state untouched for every argument
pair, and consequently the whole outcome of `send_to_kafka` (counters,
effect trace, DataFrame) is unchanged under any change of the
broker-reported delivery outcomes: all acknowledgment outcomes are
silently discarded. -/
theorem claim_C8_noop_callback :
    (∀ err msg, ackCallback err msg = (PyValue.pnull, id))
    ∧ ∀ (producerOk : Bool) (o o' : Oracle) (df : List Record),
        o.produceRaises = o'.produceRaises →
        sendToKafkaRun producerOk o df = sendToKafkaRun producerOk o' df :=
  ⟨fun _ _ => rfl,
   fun producerOk o o' df h => sendToKafkaRun_ack_indep producerOk o o' h df⟩

/-- C8 witness: a run where every delivery is acknowledged and a run
where the broker reports the second delivery as failed have identical
outcomes. -/
theorem claim_C8_noop_callback_witness :
    sendToKafkaRun true oAllOk [rA, rB, rC]
      = sendToKafkaRun true oAckSecondFails [rA, rB, rC] :=
  claim_C8_noop_callback.2 true oAllOk oAckSecondFails [rA, rB, rC] rfl

/-- C9: when the path does not exist on the filesystem, `load_csv`
raises `FileNotFoundError` without invoking `pandas.read_csv` at all
(the result is the same for every possible reader), and `main` catches
it and exits with code 1. -/
theorem claim_C9_missing_file (fs : String → Option String)
    (readCsv readCsv' : String → Except String (List Record))
    (path : String) (producerOk : Bool) (o : Oracle) (h : fs path = none) :
    load_csv fs readCsv path = Except.error (LoadError.fileNotFound path)
    ∧ load_csv fs readCsv path = load_csv fs readCsv' path
    ∧ mainExit fs readCsv path producerOk o = 1 := by
  refine ⟨?_, ?_, ?_⟩ <;> simp [load_csv, mainExit, h]

/-- C9 witness: an empty filesystem, a missing path, and two different
readers (one parsing, one failing). -/
theorem claim_C9_missing_file_witness :
    load_csv (fun _ => none) readCsvData "missing.csv"
        = Except.error (LoadError.fileNotFound "missing.csv")
    ∧ load_csv (fun _ => none) readCsvData "missing.csv"
        = load_csv (fun _ => none) readCsvBroken "missing.csv"
    ∧ mainExit (fun _ => none) readCsvData "missing.csv" true oAllOk = 1 :=
  claim_C9_missing_file (fun _ => none) readCsvData readCsvBroken
    "missing.csv" true oAllOk rfl
